import Mathlib

/-!
Verification of `controlbox/connector/serialconn.py` from
m-mcgowan/controlbox-connect-py.

The Python module is shallowly embedded: each method becomes a Lean
function; mutation of the serial handle becomes explicit state passing;
Python exceptions become an `Except PyError` result; logging becomes an
explicit list of emitted log strings.  Python's `%`-formatting of strings
is modelled faithfully, including the `TypeError` it raises when the number
of `%s` placeholders does not match the number of arguments, because one
call site in the source depends on that behaviour.
-/

/-- Python exception values that can arise in this module.
`serialException` models `serial.SerialException` (the transport error),
`connectorError` models `controlbox.connector.base.ConnectorError` raised
with `raise ConnectorError from e` (the chained cause is carried),
`typeError` and `valueError` model the builtin exceptions. -/
inductive PyError where
  | serialException (msg : String)
  | connectorError (cause : PyError)
  | typeError (msg : String)
  | valueError (msg : String)
  deriving Repr, DecidableEq

/-- The value returned by a Python function: `Python None`, or a boolean.
Used to model return values of methods whose docstring promises a bool. -/
inductive PyRet where
  | none
  | bool (b : Bool)
  deriving Repr, DecidableEq

/-- State of a `serial.Serial` handle.  `isOpen` is the open flag queried by
`Serial.isOpen()`; `port` is the configured port name; `name` is the `name`
attribute read by `_try_available`; `openFails` is the environment's
behaviour of `Serial.open()` on this handle (`some msg` means `open()`
raises `SerialException(msg)`, `none` means it succeeds); `openCount`
counts how many times `open()` has successfully run, so that a theorem can
state that no (second) open was attempted. -/
structure Serial where
  isOpen : Bool
  port : String
  name : String
  openFails : Option String
  openCount : Nat
  deriving Repr, DecidableEq

/-- `Serial.open()`: raises `SerialException` when the environment makes the
open fail, otherwise marks the handle open. -/
def Serial.open (s : Serial) : Except PyError Serial :=
  match s.openFails with
  | some m => .error (.serialException m)
  | none => .ok { s with isOpen := true, openCount := s.openCount + 1 }

/-- `Serial.close()`: unconditionally marks the handle closed. -/
def Serial.close (s : Serial) : Serial :=
  { s with isOpen := false }

/-- Count of `%s` placeholders in a character list. -/
def countFmtChars : List Char → Nat
  | '%' :: 's' :: rest => countFmtChars rest + 1
  | _ :: rest => countFmtChars rest
  | [] => 0

/-- Count of `%s` placeholders in a Python format string. -/
def countPercentS (s : String) : Nat :=
  countFmtChars s.data

/-- Substitute arguments for `%s` placeholders (used only when the counts
match). -/
def substFmtChars : List Char → List String → String
  | '%' :: 's' :: rest, a :: args => a ++ substFmtChars rest args
  | c :: rest, args => String.singleton c ++ substFmtChars rest args
  | [], _ => ""

/-- Python's `fmt % args` on strings: raises `TypeError` when the number of
`%s` placeholders does not match the number of supplied arguments,
otherwise yields the substituted string. -/
def pyFormat (fmt : String) (args : List String) : Except PyError String :=
  if args.length < countPercentS fmt then
    .error (.typeError "not enough arguments for format string")
  else if countPercentS fmt < args.length then
    .error (.typeError "not all arguments converted during string formatting")
  else
    .ok (substFmtChars fmt.data args)

/-- `str(e)` for the exceptions of this module, used when `__enter__` logs a
caught `ConnectorError`. -/
def PyError.str : PyError → String
  | .serialException m => m
  | .connectorError _ => ""
  | .typeError m => m
  | .valueError m => m

/-- A `SerialConduit` wrapping the (now open) serial handle, as returned by
`SerialConnector._connect`. -/
structure Conduit where
  serial : Serial
  deriving Repr, DecidableEq

/-- State of a `SerialConnector`.  `serial` is the owned transport handle
(`self._serial`).  `conduit` and `protocol` are the base-class fields of
`AbstractConnector` (`controlbox/connector/base.py`, not part of the
sources here): per the spec the conduit is stored on successful connect and
returned unchanged by an idempotent re-connect, and the protocol is set
once connection succeeds and cleared on disconnect. -/
structure SerialConnector where
  serial : Serial
  conduit : Option Conduit
  protocol : Option String
  deriving Repr, DecidableEq

/-- Number of parameters besides `self` declared by
`SerialConnector.__init__(self, serial, sniffer)` in the source. -/
def SerialConnector.initParamCount : Nat := 2

/-- `SerialConnector.__init__` called with matching arity: stores the serial
handle and raises `ValueError` when the handle is already open.  The
`sniffer` argument is opaque configuration stored by the base class and
carries no behaviour modelled here. -/
def SerialConnector.init (serial : Serial) : Except PyError SerialConnector :=
  if serial.isOpen then
    .error (.valueError "serial object should be initially closed")
  else
    .ok { serial := serial, conduit := none, protocol := none }

/-- `SerialConnector._connected`: `return self._serial.isOpen()`.  The pair
returns the queried boolean together with the (unchanged) connector state,
making the absence of side effects a provable statement. -/
def SerialConnector.connectedQuery (c : SerialConnector) :
    Bool × SerialConnector :=
  (c.serial.isOpen, c)

/-- Modelled from the spec: `AbstractConnector.is_connected` of
`controlbox/connector/base.py` is not among the sources; per the spec it is
a pure query of transport state realised by the `_connected` hook. -/
def SerialConnector.is_connected (c : SerialConnector) :
    Bool × SerialConnector :=
  SerialConnector.connectedQuery c

/-- `SerialConnector._try_open`, line by line:
if the handle is not open, call `open()`; on success evaluate
`"opened serial port %s" % self._serial.port` and log it at info level; on
`SerialException e` the handler first evaluates
`"error opening serial port %s: %s" % self._serial.port` — a format string
with two placeholders applied to a single argument — and only then would
execute `raise ConnectorError from e`.  The function body contains no
`return` statement, so every non-raising path returns Python `None`.
Result: (returned value or raised error, connector state, emitted logs). -/
def SerialConnector.tryOpen (c : SerialConnector) :
    Except PyError PyRet × SerialConnector × List String :=
  let s := c.serial
  if s.isOpen then
    (.ok .none, c, [])
  else
    match Serial.open s with
    | .ok s2 =>
        match pyFormat "opened serial port %s" [s2.port] with
        | .ok msg => (.ok .none, { c with serial := s2 }, [msg])
        | .error e => (.error e, { c with serial := s2 }, [])
    | .error e =>
        match pyFormat "error opening serial port %s: %s" [s.port] with
        | .ok msg => (.error (.connectorError e), c, [msg])
        | .error e2 => (.error e2, c, [])

/-- `SerialConnector._connect`: `self._try_open(); return SerialConduit(self._serial)`. -/
def SerialConnector.connectHook (c : SerialConnector) :
    Except PyError Conduit × SerialConnector × List String :=
  match SerialConnector.tryOpen c with
  | (.ok _, c2, log) => (.ok { serial := c2.serial }, c2, log)
  | (.error e, c2, log) => (.error e, c2, log)

/-- `SerialConnector._disconnect`: `self._serial.close()`. -/
def SerialConnector.disconnectHook (c : SerialConnector) : SerialConnector :=
  { c with serial := Serial.close c.serial }

/-- Modelled from the spec: `AbstractConnector.connect` of
`controlbox/connector/base.py` is not among the sources.  Per the spec, if
already connected it returns the existing conduit unchanged, otherwise it
runs the subclass `_connect` hook, stores the conduit and sets the protocol
on success, and on failure the error propagates to the caller (the
translation of the transport error into `ConnectorError` is performed
inside the serial `_try_open` hook of the sources). -/
def SerialConnector.connect (c : SerialConnector) :
    Except PyError Conduit × SerialConnector × List String :=
  if (SerialConnector.connectedQuery c).1 then
    match c.conduit with
    | some cd => (.ok cd, c, [])
    | none => (.ok { serial := c.serial }, c, [])
  else
    match SerialConnector.connectHook c with
    | (.ok cd, c2, log) =>
        (.ok cd, { c2 with conduit := some cd, protocol := some "controlbox" }, log)
    | (.error e, c2, log) => (.error e, c2, log)

/-- Modelled from the spec: `AbstractConnector.disconnect` of
`controlbox/connector/base.py` is not among the sources.  Per the spec it
is a no-op when already disconnected, otherwise it runs the `_disconnect`
hook and discards the protocol and conduit. -/
def SerialConnector.disconnect (c : SerialConnector) : SerialConnector :=
  if (SerialConnector.connectedQuery c).1 then
    { SerialConnector.disconnectHook c with conduit := none, protocol := none }
  else
    c

/-- `SerialConnector._try_available`:
`n = self._serial.name; try: return n in serial_ports() except SerialException: return False`.
The enumeration `serial_ports()` is an external collaborator; its outcome is
passed in as either the enumerated port list or the message of the
`SerialException` it raised. -/
def SerialConnector.tryAvailable (c : SerialConnector)
    (enumeration : Except String (List String)) : Bool :=
  match enumeration with
  | .ok ports => decide (c.serial.name ∈ ports)
  | .error _ => false

/-- Number of arguments the factory passes when it evaluates
`SerialConnector(s)` in `SerialConnectorFactory.__init__` (besides self):
a single one. -/
def factoryConnectorArgCount : Nat := 1

/-- State of a `SerialConnectorFactory`.  In the source `self.serial` and
`self.connector._serial` are the same object, so the factory holds only the
connector and its serial handle is a projection. -/
structure SerialConnectorFactory where
  connector : SerialConnector
  deriving Repr, DecidableEq

/-- `self.serial` of the factory: the handle owned by its connector. -/
def SerialConnectorFactory.serial (f : SerialConnectorFactory) : Serial :=
  f.connector.serial

/-- `SerialConnectorFactory.__init__(self, port, device)`: builds a fresh
closed `Serial`, sets its port, configures it for the device
(`configure_serial_for_device` is opaque transport configuration carried by
`openFails`, the environment's behaviour of a later `open()` on this port),
then evaluates `SerialConnector(s)`.  `SerialConnector.__init__` declares
two parameters besides self but is passed a single argument, so the call's
arity is checked as Python does before any constructor body runs. -/
def SerialConnectorFactory.init (port : String) (openFails : Option String) :
    Except PyError SerialConnectorFactory :=
  let s : Serial :=
    { isOpen := false, port := port, name := port,
      openFails := openFails, openCount := 0 }
  if factoryConnectorArgCount = SerialConnector.initParamCount then
    match SerialConnector.init s with
    | .ok c => .ok { connector := c }
    | .error e => .error e
  else
    .error (.typeError "missing 1 required positional argument: sniffer")

/-- `SerialConnectorFactory.__enter__`, line by line: log the detected
device, call `self.connector.connect()`, log success with the protocol
(`str(None)` is the string rendered when no protocol is set); a caught
`ConnectorError` is logged with the port and then re-raised unchanged
(`raise e`).  The body has no `return` statement, so the value a
with-statement would bind is Python `None` on every successful path. -/
def SerialConnectorFactory.enter (f : SerialConnectorFactory) :
    Except PyError PyRet × SerialConnectorFactory × List String :=
  match pyFormat "Detected device on %s" [(SerialConnectorFactory.serial f).port] with
  | .error e => (.error e, f, [])
  | .ok m1 =>
    match SerialConnector.connect f.connector with
    | (.ok _, c2, log) =>
        match pyFormat "Connected device on %s using protocol %s"
            [c2.serial.port, c2.protocol.getD "None"] with
        | .ok m2 => (.ok .none, { connector := c2 }, m1 :: log ++ [m2])
        | .error e => (.error e, { connector := c2 }, m1 :: log)
    | (.error (.connectorError cause), c2, log) =>
        match pyFormat "Unable to connect to device on %s - %s"
            [c2.serial.port, PyError.str (.connectorError cause)] with
        | .ok m3 =>
            (.error (.connectorError cause), { connector := c2 }, m1 :: log ++ [m3])
        | .error e2 => (.error e2, { connector := c2 }, m1 :: log)
    | (.error e, c2, log) => (.error e, { connector := c2 }, m1 :: log)

/-- Number of parameters besides self declared by the source's
`SerialConnectorFactory.__exit__(self)`. -/
def SerialConnectorFactory.exitParamCount : Nat := 0

/-- Number of arguments a Python with-statement always passes when it calls
`__exit__` on leaving the scope: the exception type, value and traceback
(each `None` on a normal exit). -/
def contextExitArgCount : Nat := 3

/-- The body of `__exit__`: log the disconnect, then
`self.connector.disconnect()`. -/
def SerialConnectorFactory.exitBody (f : SerialConnectorFactory) :
    Except PyError PyRet × SerialConnectorFactory × List String :=
  match pyFormat "Disconnected device on %s" [(SerialConnectorFactory.serial f).port] with
  | .ok m =>
      (.ok .none, { connector := SerialConnector.disconnect f.connector }, [m])
  | .error e => (.error e, f, [])

/-- The `__exit__` call a with-statement makes on every exit path: three
arguments are passed, their number is checked against the declared
parameter count as Python does, and only on a match does the body run. -/
def SerialConnectorFactory.exitCall (f : SerialConnectorFactory) :
    Except PyError PyRet × SerialConnectorFactory × List String :=
  if contextExitArgCount = SerialConnectorFactory.exitParamCount then
    SerialConnectorFactory.exitBody f
  else
    (.error (.typeError "takes 1 positional argument but 4 were given"), f, [])

/-- Watchdog transition events.  `available` models `ResourceAvailableEvent`
and `unavailable` models `ResourceUnavailableEvent`; each carries its source
identifier.  The connector payload of an available event plays no role in
counting events per identifier and is omitted. -/
inductive WEvent where
  | available (source : String)
  | unavailable (source : String)
  deriving Repr, DecidableEq

/-- Modelled from the spec: the watchdog (`controlbox/conduit/watchdog.py`
and `SerialWatchdog` of `controlbox/conduit/serial_conduit.py`) is not among
the sources here.  Per spec section 4.4, one poll enumerates the presently
available identifiers, emits one `ResourceAvailable` per enumerated
identifier not yet known whose connector construction succeeded (only those
are added to `known`), then one `ResourceUnavailable` per known identifier
no longer enumerated (removing it from `known`), additions before removals.
`constructOk` tells for which identifiers the factory succeeds. -/
def Watchdog.poll (known observed : Finset String)
    (constructOk : String → Bool) : List WEvent × Finset String :=
  let adds := (observed \ known).filter (fun i => constructOk i = true)
  let removes := known \ observed
  ((adds.sort (· ≤ ·)).map WEvent.available ++
     (removes.sort (· ≤ ·)).map WEvent.unavailable,
   (known ∪ adds) \ removes)

/-- A closed serial handle on `/dev/ttyUSB0` whose `open()` raises
`SerialException`.  Used as concrete input by several theorems. -/
def failingSerial : Serial :=
  { isOpen := false, port := "/dev/ttyUSB0", name := "/dev/ttyUSB0",
    openFails := some "could not open port /dev/ttyUSB0", openCount := 0 }

/-- A closed serial handle on `/dev/ttyUSB0` whose `open()` succeeds. -/
def workingSerial : Serial :=
  { isOpen := false, port := "/dev/ttyUSB0", name := "/dev/ttyUSB0",
    openFails := none, openCount := 0 }

/-- An already-open serial handle on `/dev/ttyUSB0`. -/
def openSerial : Serial :=
  { isOpen := true, port := "/dev/ttyUSB0", name := "/dev/ttyUSB0",
    openFails := none, openCount := 1 }

/-- A freshly constructed connector around a given handle. -/
def mkConnector (s : Serial) : SerialConnector :=
  { serial := s, conduit := none, protocol := none }

/-! ## Theorems -/

/-- C1: the claim says a failing transport open makes `connect()` raise
`ConnectorError` chaining the original `SerialException`.  On the code this
fails: the `except SerialException` handler of `_try_open` first evaluates
`"error opening serial port %s: %s" % self._serial.port`, a format string
with two `%s` placeholders applied to a single argument, which raises
`TypeError("not enough arguments for format string")` before the
`raise ConnectorError from e` line is reached.  This theorem evaluates the
embedded code at such an input: `connect` yields that `TypeError`, and the
handle stays closed. -/
theorem connect_open_failure_diverges :
    (SerialConnector.connect (mkConnector failingSerial)).1 =
      .error (.typeError "not enough arguments for format string") ∧
    (SerialConnector.connect (mkConnector failingSerial)).2.1.serial.isOpen = false :=
  ⟨rfl, rfl⟩

/-- C2: one watchdog poll from known set `known` to enumerated set
`observed` emits exactly one `ResourceAvailable` event per identifier newly
present (and successfully constructed), exactly one `ResourceUnavailable`
per identifier no longer present, and afterwards `known` equals the
enumerated set restricted to identifiers that were already known or whose
connector construction succeeded. -/
theorem watchdog_poll_transition (known observed : Finset String)
    (constructOk : String → Bool) (i : String) :
    ((Watchdog.poll known observed constructOk).1.count (WEvent.available i) =
      if i ∈ observed ∧ i ∉ known ∧ constructOk i = true then 1 else 0) ∧
    ((Watchdog.poll known observed constructOk).1.count (WEvent.unavailable i) =
      if i ∈ known ∧ i ∉ observed then 1 else 0) ∧
    ((Watchdog.poll known observed constructOk).2 =
      observed.filter (fun j => j ∈ known ∨ constructOk j = true)) := by
  refine ⟨?_, ?_, ?_⟩
  · simp only [Watchdog.poll, List.count_append]
    rw [List.count_map_of_injective _ WEvent.available
        (fun a b hab => by injection hab) i,
      List.count_eq_of_nodup (Finset.sort_nodup _ _)]
    have h0 : (((known \ observed).sort (· ≤ ·)).map WEvent.unavailable).count
        (WEvent.available i) = 0 := by
      rw [List.count_eq_zero]
      simp
    rw [h0]
    simp [Finset.mem_sort, Finset.mem_filter, Finset.mem_sdiff, and_assoc]
  · simp only [Watchdog.poll, List.count_append]
    rw [List.count_map_of_injective _ WEvent.unavailable
        (fun a b hab => by injection hab) i,
      List.count_eq_of_nodup (Finset.sort_nodup _ _)]
    have h0 : ((((observed \ known).filter
        (fun j => constructOk j = true)).sort (· ≤ ·)).map WEvent.available).count
        (WEvent.unavailable i) = 0 := by
      rw [List.count_eq_zero]
      simp
    rw [h0]
    simp [Finset.mem_sort, Finset.mem_sdiff]
  · apply Finset.ext
    intro j
    simp only [Watchdog.poll, Finset.mem_sdiff, Finset.mem_union, Finset.mem_filter]
    tauto

/-- C3: constructing a `SerialConnector` with a handle that reports open
fails immediately with the precondition-violation `ValueError`, before any
connect logic runs; with a handle that reports closed, construction
succeeds. -/
theorem serialConnector_init_precondition (s : Serial) :
    (s.isOpen = true →
      SerialConnector.init s =
        .error (.valueError "serial object should be initially closed")) ∧
    (s.isOpen = false →
      SerialConnector.init s = .ok (mkConnector s)) := by
  constructor <;> intro h <;> simp [SerialConnector.init, mkConnector, h]

/-- Witness for C3 at concrete handles: an open handle is rejected, a
closed one accepted. -/
theorem serialConnector_init_precondition_witness :
    SerialConnector.init openSerial =
      .error (.valueError "serial object should be initially closed") ∧
    SerialConnector.init workingSerial = .ok (mkConnector workingSerial) :=
  ⟨(serialConnector_init_precondition openSerial).1 rfl,
   (serialConnector_init_precondition workingSerial).2 rfl⟩

/-- C4: when the presence enumeration raises (the transport error the
`except SerialException` clause catches), `_try_available` returns `false`;
when it yields a port list the probe returns the membership test.  In
either case the probe returns a boolean and surfaces no exception. -/
theorem tryAvailable_never_raises (c : SerialConnector) (m : String)
    (ports : List String) :
    SerialConnector.tryAvailable c (.error m) = false ∧
    SerialConnector.tryAvailable c (.ok ports) = decide (c.serial.name ∈ ports) :=
  ⟨rfl, rfl⟩

/-- C5: the claim says release (disconnect) runs on every exit path of a
factory used as a scoped resource.  On the code this fails: the source
declares `def __exit__(self):` with no further parameters, while the
context-manager protocol always passes three arguments on leaving the
scope, so every exit of a with-statement raises
`TypeError` and `disconnect()` is never invoked — the factory state is
returned unchanged and no log line is emitted. -/
theorem exitCall_raises_typeError (f : SerialConnectorFactory) :
    SerialConnectorFactory.exitCall f =
      (.error (.typeError "takes 1 positional argument but 4 were given"), f, []) :=
  rfl

/-- C6: the claim says a factory acquire constructs the connector and
propagates a logged `ConnectorError` when `connect()` fails.  On the code
the acquire never reaches `connect()`: `SerialConnectorFactory.__init__`
evaluates `SerialConnector(s)` with a single argument while
`SerialConnector.__init__(self, serial, sniffer)` declares two required
parameters, so every factory construction raises `TypeError` first. -/
theorem factory_init_raises_typeError (port : String)
    (openFails : Option String) :
    SerialConnectorFactory.init port openFails =
      .error (.typeError "missing 1 required positional argument: sniffer") :=
  rfl

/-- C7: when the serial handle already reports open, `_try_open` returns
success (Python `None`) with the connector state unchanged — in particular
`openCount` is unchanged, so no second underlying open is attempted — and
no log line is emitted. -/
theorem tryOpen_already_open_noop (c : SerialConnector)
    (h : c.serial.isOpen = true) :
    SerialConnector.tryOpen c = (.ok PyRet.none, c, []) := by
  simp [SerialConnector.tryOpen, h]

/-- Witness for C7 at a concrete already-open handle. -/
theorem tryOpen_already_open_noop_witness :
    (mkConnector openSerial).serial.isOpen = true ∧
    SerialConnector.tryOpen (mkConnector openSerial) =
      (.ok PyRet.none, mkConnector openSerial, []) :=
  ⟨rfl, tryOpen_already_open_noop (mkConnector openSerial) rfl⟩

/-- C8: the connected-state query (`is_connected`, realised by the
`_connected` hook) returns exactly the open flag of the transport handle
and leaves the connector (and with it the handle) unchanged: it has no side
effects. -/
theorem is_connected_pure (c : SerialConnector) :
    (SerialConnector.is_connected c).1 = c.serial.isOpen ∧
    (SerialConnector.is_connected c).2 = c :=
  ⟨rfl, rfl⟩

/-- C9: every successful factory acquire (`__enter__`) returns Python
`None`, so a with-statement would bind `None` rather than the connector or
the conduit. -/
theorem enter_returns_none (f : SerialConnectorFactory) (v : PyRet)
    (f2 : SerialConnectorFactory) (log : List String)
    (h : SerialConnectorFactory.enter f = (.ok v, f2, log)) : v = PyRet.none := by
  unfold SerialConnectorFactory.enter at h
  split at h
  · simp_all
  · split at h <;> (try split at h) <;> simp_all

/-- Witness for C9: a concrete factory whose connect succeeds; its acquire
returns Python `None`. -/
theorem enter_returns_none_witness :
    (SerialConnectorFactory.enter { connector := mkConnector workingSerial }).1 =
      .ok PyRet.none ∧ PyRet.none = PyRet.none :=
  ⟨rfl, enter_returns_none { connector := mkConnector workingSerial } PyRet.none
    (SerialConnectorFactory.enter { connector := mkConnector workingSerial }).2.1
    (SerialConnectorFactory.enter { connector := mkConnector workingSerial }).2.2
    rfl⟩

/-- C10: every non-raising run of `_try_open` returns Python `None` — both
when the port was already open and when an open was attempted — despite the
docstring's promise of a boolean; success is signalled only by the absence
of an exception. -/
theorem tryOpen_returns_none (c : SerialConnector) (v : PyRet)
    (c2 : SerialConnector) (log : List String)
    (h : SerialConnector.tryOpen c = (.ok v, c2, log)) : v = PyRet.none := by
  simp only [SerialConnector.tryOpen] at h
  split at h
  · simp_all
  · split at h <;> (try split at h) <;> simp_all

/-- Witness for C10 at a concrete input: on an already-open handle
`_try_open` does not raise and the returned value is Python `None`. -/
theorem tryOpen_returns_none_witness :
    SerialConnector.tryOpen (mkConnector openSerial) =
      (.ok PyRet.none, mkConnector openSerial, []) ∧ PyRet.none = PyRet.none :=
  ⟨rfl, tryOpen_returns_none (mkConnector openSerial) PyRet.none
    (mkConnector openSerial) [] rfl⟩
